import Mathlib

/-!
Verification development for the NNPI backend decision core
(`lib/Backends/NNPI/NNPI.cpp`): the legality oracle (`isOpSupported`,
`acceptForExecution`), the legalization planner (`shouldLower`,
`lowerRequiredNodes`), the parallelization planner
(`setupBasicParallelizationConfigs`, `setupPerNodeParallelizationConfigs`,
`validateBackendSpecificNodeInfo`, `parallelizeFunction`,
`transformPostLowering`) and the partition resource binder (`bindContexts`).

Operation instances are shallowly embedded as a kind together with the
ordered tensor types of the node's inputs and outputs; graphs are lists of
nodes; the device DAG is a rooted tree of named partition nodes.  Machine
integers of the source are modelled as `Nat`/`Int` (no overflow is relevant
to any statement here: all thresholds are small constants).
-/

namespace NNPI

/-- Element kinds of tensor types, as used by the NNPI backend decision
functions (the subset of the Glow `ElemKind` enumeration that the embedded
code mentions). -/
inductive ElemKind where
  | FloatTy
  | Float16Ty
  | Int8QTy
  | UInt8QTy
  | Int16QTy
  | Int32QTy
  | Int32ITy
  | Int64ITy
  | UInt8FusedQTy
  | UInt8FusedFP16QTy
  | UInt4FusedFP16QTy
  | BoolTy
deriving DecidableEq, Repr

/-- Node kinds appearing in the NNPI backend switches (`Kinded::Kind`).
`UnknownNodeKind` stands for every kind not named in any of the switches
(they all take the `default` branch). -/
inductive NodeKind where
  | AddNodeKind
  | SubNodeKind
  | MulNodeKind
  | MaxNodeKind
  | MinNodeKind
  | PowNodeKind
  | ReluNodeKind
  | ReplaceNaNNodeKind
  | MatMulNodeKind
  | BatchedReduceAddNodeKind
  | BatchedReduceMeanNodeKind
  | BatchedReduceMinNodeKind
  | LocalResponseNormalizationNodeKind
  | BatchedAddNodeKind
  | TanhNodeKind
  | LogNodeKind
  | SigmoidNodeKind
  | SplatNodeKind
  | ExpNodeKind
  | LayerNormalizationNodeKind
  | BatchNormalizationNodeKind
  | AvgPoolNodeKind
  | AdaptiveAvgPoolNodeKind
  | BatchMatMulNodeKind
  | PReluNodeKind
  | ClipNodeKind
  | DivNodeKind
  | SaveNodeKind
  | ConcatNodeKind
  | TileNodeKind
  | TransposeNodeKind
  | ConvolutionNodeKind
  | Convolution3DNodeKind
  | QuantizeNodeKind
  | DequantizeNodeKind
  | RescaleQuantizedNodeKind
  | ConvertToNodeKind
  | FullyConnectedNodeKind
  | MaxPoolNodeKind
  | TopKNodeKind
  | GatherNodeKind
  | GatherRangesNodeKind
  | SliceNodeKind
  | ReshapeNodeKind
  | CmpLTENodeKind
  | CmpEQNodeKind
  | CmpLTNodeKind
  | SelectNodeKind
  | RowwiseQuantizedFullyConnectedNodeKind
  | ChannelwiseQuantizedConvolutionNodeKind
  | SparseLengthsSumNodeKind
  | SparseLengthsWeightedSumNodeKind
  | EmbeddingBagNodeKind
  | EmbeddingBagByteRowwiseOffsetsNodeKind
  | FusedRowwiseQuantizedSparseLengthsSumNodeKind
  | FusedRowwiseQuantizedSparseLengthsWeightedSumNodeKind
  | RowwiseQuantizedSparseLengthsWeightedSumNodeKind
  | SparseToDenseNodeKind
  | SoftMaxNodeKind
  | LengthsRangeFillNodeKind
  | BatchOneHotNodeKind
  | NNPICustomDSPNodeKind
  | NNPICustomIANodeKind
  | SpaceToDepthNodeKind
  | ArgMaxNodeKind
  | LogitNodeKind
  | UnknownNodeKind
deriving DecidableEq, Repr

/-- Tensor type: element kind plus shape (ordered dimension sizes). -/
structure TensorType where
  elemKind : ElemKind
  dims : List Nat
deriving DecidableEq, Repr

/-- Modelled from the spec: quantization-style element kinds (the Glow
`Type::isQuantizedType` predicate; its source is outside this backend). -/
def ElemKind.isQuantizedKind : ElemKind → Bool
  | .Int8QTy | .UInt8QTy | .Int16QTy | .Int32QTy
  | .UInt8FusedQTy | .UInt8FusedFP16QTy | .UInt4FusedFP16QTy => true
  | _ => false

/-- Quantized-type test on a tensor type. -/
def TensorType.isQuantizedType (t : TensorType) : Bool :=
  t.elemKind.isQuantizedKind

/-- Operation instance as seen by the backend decision functions: kind plus
ordered input and output tensor types (the Glow `NodeInfo` view of a node). -/
structure NodeInfo where
  kind : NodeKind
  inputs : List TensorType
  outputs : List TensorType
deriving DecidableEq, Repr

/-- Junk tensor type returned for an out-of-range port access (the C++ code
never performs such an access on a well-formed node). -/
def junkType : TensorType := ⟨ElemKind.FloatTy, []⟩

/-- Type of input port `i`. -/
def NodeInfo.getInTy (ni : NodeInfo) (i : Nat) : TensorType :=
  ni.inputs.getD i junkType

/-- Type of output port `i`. -/
def NodeInfo.getOutTy (ni : NodeInfo) (i : Nat) : TensorType :=
  ni.outputs.getD i junkType

/-- Element kind of input port `i`. -/
def NodeInfo.getInElemTy (ni : NodeInfo) (i : Nat) : ElemKind :=
  (ni.getInTy i).elemKind

/-- Element kind of output port `i`. -/
def NodeInfo.getOutElemTy (ni : NodeInfo) (i : Nat) : ElemKind :=
  (ni.getOutTy i).elemKind

/-- Modelled from the spec: the Glow `NodeInfo` helper
`allInputsAndOutputsHaveSameElemKind` (its source is outside this backend):
true when one allowed element kind is shared by every input and output whose
index is not in the respective ignore list. -/
def NodeInfo.allInputsAndOutputsHaveSameElemKind (ni : NodeInfo)
    (allowed : List ElemKind) (ignoreIn ignoreOut : List Nat) : Bool :=
  allowed.any fun k =>
    (ni.inputs.enum.all fun p => ignoreIn.contains p.1 || p.2.elemKind == k) &&
    (ni.outputs.enum.all fun p => ignoreOut.contains p.1 || p.2.elemKind == k)

/-! Input/output port indices of the node kinds referenced by the backend
(the generated Glow node accessors; values follow the node member order). -/

def ConvolutionNode.InputIdx : Nat := 0
def ConvolutionNode.BiasIdx : Nat := 2
def Convolution3DNode.InputIdx : Nat := 0
def Convolution3DNode.BiasIdx : Nat := 2
def QuantizeNode.InputIdx : Nat := 0
def QuantizeNode.ResultIdx : Nat := 0
def DequantizeNode.InputIdx : Nat := 0
def DequantizeNode.ResultIdx : Nat := 0
def ConvertToNode.InputIdx : Nat := 0
def ConvertToNode.ResultIdx : Nat := 0
def FullyConnectedNode.InputIdx : Nat := 0
def FullyConnectedNode.BiasIdx : Nat := 2
def MaxPoolNode.ArgmaxIdx : Nat := 1
def TopKNode.IndicesIdx : Nat := 1
def GatherNode.IndicesIdx : Nat := 1
def GatherRangesNode.DataIdx : Nat := 0
def GatherRangesNode.OutputIdx : Nat := 0
def CmpEQNode.ResultIdx : Nat := 0
def SelectNode.CondIdx : Nat := 0
def RowwiseQuantizedFullyConnectedNode.InputIdx : Nat := 0
def RowwiseQuantizedFullyConnectedNode.WeightsIdx : Nat := 1
def RowwiseQuantizedFullyConnectedNode.ScalesIdx : Nat := 2
def RowwiseQuantizedFullyConnectedNode.OffsetsIdx : Nat := 3
def RowwiseQuantizedFullyConnectedNode.BiasIdx : Nat := 4
def RowwiseQuantizedFullyConnectedNode.ResultIdx : Nat := 0
def ChannelwiseQuantizedConvolutionNode.InputIdx : Nat := 0
def ChannelwiseQuantizedConvolutionNode.FilterIdx : Nat := 1
def ChannelwiseQuantizedConvolutionNode.BiasIdx : Nat := 2
def ChannelwiseQuantizedConvolutionNode.FilterScalesIdx : Nat := 3
def ChannelwiseQuantizedConvolutionNode.FilterOffsetsIdx : Nat := 4
def ChannelwiseQuantizedConvolutionNode.ResultIdx : Nat := 0
def SparseLengthsSumNode.DataIdx : Nat := 0
def SparseLengthsSumNode.IndicesIdx : Nat := 1
def SparseLengthsSumNode.LengthsIdx : Nat := 2
def SparseLengthsSumNode.ResultIdx : Nat := 0
def SparseLengthsWeightedSumNode.DataIdx : Nat := 0
def SparseLengthsWeightedSumNode.WeightsIdx : Nat := 1
def SparseLengthsWeightedSumNode.IndicesIdx : Nat := 2
def SparseLengthsWeightedSumNode.LengthsIdx : Nat := 3
def EmbeddingBagNode.DataIdx : Nat := 0
def EmbeddingBagNode.WeightsIdx : Nat := 1
def EmbeddingBagNode.IndicesIdx : Nat := 2
def EmbeddingBagNode.OffsetsIdx : Nat := 3
def EmbeddingBagByteRowwiseOffsetsNode.DataIdx : Nat := 0
def EmbeddingBagByteRowwiseOffsetsNode.WeightsIdx : Nat := 1
def EmbeddingBagByteRowwiseOffsetsNode.IndicesIdx : Nat := 2
def EmbeddingBagByteRowwiseOffsetsNode.OffsetsIdx : Nat := 3
def EmbeddingBagByteRowwiseOffsetsNode.ResultIdx : Nat := 0
def FusedRowwiseQuantizedSparseLengthsSumNode.DataIdx : Nat := 0
def FusedRowwiseQuantizedSparseLengthsSumNode.IndicesIdx : Nat := 1
def FusedRowwiseQuantizedSparseLengthsSumNode.LengthsIdx : Nat := 2
def FusedRowwiseQuantizedSparseLengthsSumNode.ResultIdx : Nat := 0
def FusedRowwiseQuantizedSparseLengthsWeightedSumNode.DataIdx : Nat := 0
def FusedRowwiseQuantizedSparseLengthsWeightedSumNode.WeightsIdx : Nat := 1
def FusedRowwiseQuantizedSparseLengthsWeightedSumNode.IndicesIdx : Nat := 2
def FusedRowwiseQuantizedSparseLengthsWeightedSumNode.LengthsIdx : Nat := 3
def FusedRowwiseQuantizedSparseLengthsWeightedSumNode.ResultIdx : Nat := 0
def RowwiseQuantizedSparseLengthsWeightedSumNode.DataIdx : Nat := 0
def RowwiseQuantizedSparseLengthsWeightedSumNode.ScalesIdx : Nat := 1
def RowwiseQuantizedSparseLengthsWeightedSumNode.OffsetsIdx : Nat := 2
def RowwiseQuantizedSparseLengthsWeightedSumNode.WeightsIdx : Nat := 3
def RowwiseQuantizedSparseLengthsWeightedSumNode.IndicesIdx : Nat := 4
def RowwiseQuantizedSparseLengthsWeightedSumNode.LengthsIdx : Nat := 5
def SparseToDenseNode.IndicesIdx : Nat := 0
def SoftMaxNode.SelectedIdx : Nat := 1
def BatchOneHotNode.LengthsIdx : Nat := 1
def ArgMaxNode.ResultIdx : Nat := 0
def ClipNode.ResultIdx : Nat := 0

/-- Predicate on a tensor type: 2 dimensional and unary (trailing dimension
of size 1).  Usually the data input of SparseLengths(Weighted)Sum is passed
in here (`isUnaryLookup` in the source). -/
def isUnaryLookup (t : TensorType) : Bool :=
  if t.dims.length ≠ 2 then false
  else t.dims.getD 1 0 == 1

/-- Whether an SLS indices type is valid for NNPI: one-dimensional with
fewer than `1 << 16` elements (`isSLSIndicesValid` in the source). -/
def isSLSIndicesValid (t : TensorType) : Bool :=
  t.dims.length == 1 && decide (t.dims.getD 0 0 < 65536)

/-- The legality oracle `NNPIBackend::isOpSupported`: a pure switch over the
operation kind checking element kinds, companion scale/offset kinds and the
SLS index bound.  Unknown kinds are unsupported. -/
def isOpSupported (ni : NodeInfo) : Bool :=
  match ni.kind with
  | .AddNodeKind | .SubNodeKind | .MulNodeKind | .MaxNodeKind | .MinNodeKind
  | .PowNodeKind | .ReluNodeKind | .ReplaceNaNNodeKind | .MatMulNodeKind
  | .BatchedReduceAddNodeKind | .BatchedReduceMeanNodeKind
  | .BatchedReduceMinNodeKind | .LocalResponseNormalizationNodeKind
  | .BatchedAddNodeKind | .TanhNodeKind | .LogNodeKind | .SigmoidNodeKind
  | .SplatNodeKind | .ExpNodeKind =>
    ni.allInputsAndOutputsHaveSameElemKind
      [.FloatTy, .Float16Ty, .Int8QTy, .Int32ITy, .Int64ITy] [] []
  | .LayerNormalizationNodeKind =>
    ni.allInputsAndOutputsHaveSameElemKind [.FloatTy, .Float16Ty, .Int8QTy] [] []
  | .BatchNormalizationNodeKind | .AvgPoolNodeKind | .AdaptiveAvgPoolNodeKind =>
    ni.allInputsAndOutputsHaveSameElemKind [.FloatTy, .Float16Ty, .Int8QTy] [] []
  | .BatchMatMulNodeKind | .PReluNodeKind | .ClipNodeKind =>
    ni.allInputsAndOutputsHaveSameElemKind [.Int8QTy, .Float16Ty] [] []
  | .DivNodeKind =>
    ni.allInputsAndOutputsHaveSameElemKind
      [.FloatTy, .Float16Ty, .Int8QTy, .Int64ITy] [] []
  | .SaveNodeKind | .ConcatNodeKind | .TileNodeKind | .TransposeNodeKind =>
    ni.allInputsAndOutputsHaveSameElemKind
      [.FloatTy, .Float16Ty, .Int8QTy, .Int32ITy, .Int64ITy, .BoolTy] [] []
  | .ConvolutionNodeKind =>
    if !(ni.getInTy ConvolutionNode.InputIdx).isQuantizedType then
      ni.allInputsAndOutputsHaveSameElemKind [.FloatTy, .Float16Ty] [] []
    else
      ni.allInputsAndOutputsHaveSameElemKind [.Int8QTy] [ConvolutionNode.BiasIdx] [] &&
      ((ni.getInElemTy ConvolutionNode.BiasIdx == .Int32QTy) ||
       (ni.getInElemTy ConvolutionNode.BiasIdx == .FloatTy))
  | .Convolution3DNodeKind =>
    if !(ni.getInTy Convolution3DNode.InputIdx).isQuantizedType then
      ni.allInputsAndOutputsHaveSameElemKind [.FloatTy, .Float16Ty] [] []
    else
      ni.allInputsAndOutputsHaveSameElemKind [.Int8QTy] [Convolution3DNode.BiasIdx] [] &&
      ((ni.getInElemTy Convolution3DNode.BiasIdx == .Int32QTy) ||
       (ni.getInElemTy ConvolutionNode.BiasIdx == .FloatTy))
  | .QuantizeNodeKind =>
    (ni.getInElemTy QuantizeNode.InputIdx == .FloatTy ||
     ni.getInElemTy QuantizeNode.InputIdx == .Float16Ty) &&
    (ni.getOutElemTy QuantizeNode.ResultIdx == .Int8QTy)
  | .DequantizeNodeKind =>
    (ni.getInElemTy DequantizeNode.InputIdx == .Int8QTy) &&
    (ni.getOutElemTy DequantizeNode.ResultIdx == .FloatTy ||
     ni.getOutElemTy DequantizeNode.ResultIdx == .Float16Ty)
  | .RescaleQuantizedNodeKind =>
    ni.allInputsAndOutputsHaveSameElemKind [.Int8QTy] [] []
  | .ConvertToNodeKind =>
    let isConversionSupportedFor : ElemKind → Bool := fun k =>
      match k with
      | .FloatTy | .Float16Ty | .Int32ITy | .Int64ITy => true
      | _ => false
    isConversionSupportedFor (ni.getInElemTy ConvertToNode.InputIdx) &&
    isConversionSupportedFor (ni.getOutElemTy ConvertToNode.ResultIdx)
  | .FullyConnectedNodeKind =>
    if !(ni.getInTy FullyConnectedNode.InputIdx).isQuantizedType then
      ni.allInputsAndOutputsHaveSameElemKind [.FloatTy, .Float16Ty] [] []
    else
      ni.allInputsAndOutputsHaveSameElemKind [.Int8QTy] [FullyConnectedNode.BiasIdx] [] &&
      ((ni.getInElemTy FullyConnectedNode.BiasIdx == .Int32QTy) ||
       (ni.getInElemTy FullyConnectedNode.BiasIdx == .FloatTy))
  | .MaxPoolNodeKind =>
    ni.allInputsAndOutputsHaveSameElemKind [.FloatTy, .Float16Ty, .Int8QTy]
      [] [MaxPoolNode.ArgmaxIdx] &&
    (ni.getOutElemTy MaxPoolNode.ArgmaxIdx == .Int64ITy)
  | .TopKNodeKind =>
    ni.allInputsAndOutputsHaveSameElemKind [.FloatTy, .Float16Ty, .Int8QTy]
      [] [TopKNode.IndicesIdx] &&
    (ni.getOutElemTy TopKNode.IndicesIdx == .Int64ITy)
  | .GatherNodeKind =>
    ni.allInputsAndOutputsHaveSameElemKind
      [.FloatTy, .Float16Ty, .Int64ITy, .Int8QTy] [GatherNode.IndicesIdx] [] &&
    ((ni.getInElemTy GatherNode.IndicesIdx == .Int32ITy) ||
     (ni.getInElemTy GatherNode.IndicesIdx == .Int64ITy))
  | .GatherRangesNodeKind =>
    ni.allInputsAndOutputsHaveSameElemKind [.Int32ITy, .Int64ITy]
      [GatherRangesNode.DataIdx] [GatherRangesNode.OutputIdx] &&
    ((ni.getInElemTy GatherRangesNode.DataIdx == .FloatTy) ||
     (ni.getInElemTy GatherRangesNode.DataIdx == .Float16Ty) ||
     (ni.getInElemTy GatherRangesNode.DataIdx == .Int8QTy) ||
     (ni.getInElemTy GatherRangesNode.DataIdx == .Int32ITy) ||
     (ni.getInElemTy GatherRangesNode.DataIdx == .Int64ITy)) &&
    (ni.getOutElemTy GatherRangesNode.OutputIdx ==
     ni.getInElemTy GatherRangesNode.DataIdx)
  | .SliceNodeKind | .ReshapeNodeKind =>
    ni.allInputsAndOutputsHaveSameElemKind
      [.FloatTy, .Float16Ty, .Int8QTy, .Int64ITy] [] []
  | .CmpLTENodeKind | .CmpEQNodeKind | .CmpLTNodeKind =>
    ni.allInputsAndOutputsHaveSameElemKind
      [.FloatTy, .Float16Ty, .Int8QTy, .Int32ITy, .Int64ITy]
      [] [CmpEQNode.ResultIdx] &&
    (ni.getOutElemTy CmpEQNode.ResultIdx == .BoolTy)
  | .SelectNodeKind =>
    ni.allInputsAndOutputsHaveSameElemKind [.FloatTy, .Float16Ty, .Int8QTy]
      [SelectNode.CondIdx] [] &&
    (ni.getInElemTy SelectNode.CondIdx == .BoolTy)
  | .RowwiseQuantizedFullyConnectedNodeKind =>
    (ni.getInElemTy RowwiseQuantizedFullyConnectedNode.InputIdx == .Int8QTy) &&
    (ni.getInElemTy RowwiseQuantizedFullyConnectedNode.WeightsIdx == .Int8QTy) &&
    (ni.getInElemTy RowwiseQuantizedFullyConnectedNode.ScalesIdx == .FloatTy) &&
    (ni.getInElemTy RowwiseQuantizedFullyConnectedNode.OffsetsIdx == .Int32ITy) &&
    ((ni.getInElemTy RowwiseQuantizedFullyConnectedNode.BiasIdx == .Int32QTy) ||
     (ni.getInElemTy RowwiseQuantizedFullyConnectedNode.BiasIdx == .FloatTy)) &&
    (ni.getOutElemTy RowwiseQuantizedFullyConnectedNode.ResultIdx == .Int8QTy)
  | .ChannelwiseQuantizedConvolutionNodeKind =>
    (ni.getInElemTy ChannelwiseQuantizedConvolutionNode.InputIdx == .Int8QTy) &&
    (ni.getInElemTy ChannelwiseQuantizedConvolutionNode.FilterIdx == .Int8QTy) &&
    ((ni.getInElemTy ChannelwiseQuantizedConvolutionNode.BiasIdx == .Int32QTy) ||
     (ni.getInElemTy ChannelwiseQuantizedConvolutionNode.BiasIdx == .FloatTy)) &&
    (ni.getInElemTy ChannelwiseQuantizedConvolutionNode.FilterScalesIdx == .FloatTy) &&
    (ni.getInElemTy ChannelwiseQuantizedConvolutionNode.FilterOffsetsIdx == .Int32ITy) &&
    (ni.getOutElemTy ChannelwiseQuantizedConvolutionNode.ResultIdx == .Int8QTy)
  | .SparseLengthsSumNodeKind =>
    isSLSIndicesValid (ni.getInTy SparseLengthsSumNode.IndicesIdx) &&
    ni.allInputsAndOutputsHaveSameElemKind [.FloatTy, .Float16Ty, .Int8QTy]
      [SparseLengthsSumNode.IndicesIdx, SparseLengthsSumNode.LengthsIdx] [] &&
    (ni.getInElemTy SparseLengthsSumNode.IndicesIdx == .Int64ITy ||
     ni.getInElemTy SparseLengthsSumNode.IndicesIdx == .Int32ITy) &&
    (ni.getInElemTy SparseLengthsSumNode.LengthsIdx == .Int32ITy)
  | .SparseLengthsWeightedSumNodeKind =>
    isSLSIndicesValid (ni.getInTy SparseLengthsWeightedSumNode.IndicesIdx) &&
    ni.allInputsAndOutputsHaveSameElemKind [.FloatTy, .Float16Ty, .Int8QTy]
      [SparseLengthsWeightedSumNode.IndicesIdx,
       SparseLengthsWeightedSumNode.LengthsIdx] [] &&
    (ni.getInElemTy SparseLengthsWeightedSumNode.IndicesIdx == .Int64ITy ||
     ni.getInElemTy SparseLengthsWeightedSumNode.IndicesIdx == .Int32ITy) &&
    (ni.getInElemTy SparseLengthsWeightedSumNode.LengthsIdx == .Int32ITy)
  | .EmbeddingBagNodeKind =>
    isSLSIndicesValid (ni.getInTy EmbeddingBagNode.IndicesIdx) &&
    ni.allInputsAndOutputsHaveSameElemKind [.FloatTy, .Float16Ty, .Int8QTy]
      [EmbeddingBagNode.IndicesIdx, EmbeddingBagNode.OffsetsIdx] [] &&
    (ni.getInElemTy EmbeddingBagNode.IndicesIdx == .Int64ITy) &&
    (ni.getInElemTy EmbeddingBagNode.OffsetsIdx == .Int64ITy)
  | .EmbeddingBagByteRowwiseOffsetsNodeKind =>
    let dataK := ni.getInElemTy EmbeddingBagByteRowwiseOffsetsNode.DataIdx
    let offsetsK := ni.getInElemTy EmbeddingBagByteRowwiseOffsetsNode.OffsetsIdx
    let indicesK := ni.getInElemTy EmbeddingBagByteRowwiseOffsetsNode.IndicesIdx
    let resultK := ni.getOutElemTy EmbeddingBagByteRowwiseOffsetsNode.ResultIdx
    isSLSIndicesValid (ni.getInTy EmbeddingBagByteRowwiseOffsetsNode.IndicesIdx) &&
    (dataK == .UInt8FusedQTy || dataK == .UInt8FusedFP16QTy ||
     dataK == .UInt4FusedFP16QTy) &&
    (resultK == .FloatTy || resultK == .Float16Ty) &&
    (indicesK == .Int64ITy) && (offsetsK == .Int64ITy)
  | .FusedRowwiseQuantizedSparseLengthsSumNodeKind =>
    let dataK := ni.getInElemTy FusedRowwiseQuantizedSparseLengthsSumNode.DataIdx
    let lengthsK := ni.getInElemTy FusedRowwiseQuantizedSparseLengthsSumNode.LengthsIdx
    let indicesK := ni.getInElemTy FusedRowwiseQuantizedSparseLengthsSumNode.IndicesIdx
    let resultK := ni.getOutElemTy FusedRowwiseQuantizedSparseLengthsSumNode.ResultIdx
    isSLSIndicesValid (ni.getInTy FusedRowwiseQuantizedSparseLengthsSumNode.IndicesIdx) &&
    (dataK == .UInt8FusedQTy || dataK == .UInt8FusedFP16QTy ||
     dataK == .UInt4FusedFP16QTy) &&
    (resultK == .FloatTy || resultK == .Float16Ty) &&
    (indicesK == .Int64ITy || indicesK == .Int32ITy) &&
    (lengthsK == .Int32ITy)
  | .FusedRowwiseQuantizedSparseLengthsWeightedSumNodeKind =>
    let dataK := ni.getInElemTy FusedRowwiseQuantizedSparseLengthsWeightedSumNode.DataIdx
    let weightsK := ni.getInElemTy FusedRowwiseQuantizedSparseLengthsWeightedSumNode.WeightsIdx
    let lengthsK := ni.getInElemTy FusedRowwiseQuantizedSparseLengthsWeightedSumNode.LengthsIdx
    let indicesK := ni.getInElemTy FusedRowwiseQuantizedSparseLengthsWeightedSumNode.IndicesIdx
    let resultK := ni.getOutElemTy FusedRowwiseQuantizedSparseLengthsWeightedSumNode.ResultIdx
    isSLSIndicesValid
      (ni.getInTy FusedRowwiseQuantizedSparseLengthsWeightedSumNode.IndicesIdx) &&
    (dataK == .UInt8FusedQTy || dataK == .UInt8FusedFP16QTy ||
     dataK == .UInt4FusedFP16QTy) &&
    (weightsK == .FloatTy || weightsK == .Float16Ty) &&
    (resultK == .FloatTy || resultK == .Float16Ty) &&
    (indicesK == .Int64ITy || indicesK == .Int32ITy) &&
    (lengthsK == .Int32ITy)
  | .RowwiseQuantizedSparseLengthsWeightedSumNodeKind =>
    isSLSIndicesValid (ni.getInTy RowwiseQuantizedSparseLengthsWeightedSumNode.IndicesIdx) &&
    ni.allInputsAndOutputsHaveSameElemKind [.FloatTy, .Float16Ty]
      [RowwiseQuantizedSparseLengthsWeightedSumNode.DataIdx,
       RowwiseQuantizedSparseLengthsWeightedSumNode.IndicesIdx,
       RowwiseQuantizedSparseLengthsWeightedSumNode.LengthsIdx] [] &&
    (ni.getInElemTy RowwiseQuantizedSparseLengthsWeightedSumNode.DataIdx == .UInt8QTy) &&
    (ni.getInElemTy RowwiseQuantizedSparseLengthsWeightedSumNode.IndicesIdx == .Int64ITy ||
     ni.getInElemTy RowwiseQuantizedSparseLengthsWeightedSumNode.IndicesIdx == .Int32ITy) &&
    (ni.getInElemTy RowwiseQuantizedSparseLengthsWeightedSumNode.LengthsIdx == .Int32ITy)
  | .SparseToDenseNodeKind =>
    ni.allInputsAndOutputsHaveSameElemKind [.FloatTy] [SparseToDenseNode.IndicesIdx] [] &&
    (ni.getInElemTy SparseToDenseNode.IndicesIdx == .Int64ITy)
  | .SoftMaxNodeKind =>
    ni.allInputsAndOutputsHaveSameElemKind [.FloatTy, .Float16Ty, .Int8QTy]
      [SoftMaxNode.SelectedIdx] [] &&
    (ni.getInElemTy SoftMaxNode.SelectedIdx == .Int64ITy)
  | .LengthsRangeFillNodeKind =>
    ni.allInputsAndOutputsHaveSameElemKind [.Int32ITy] [] []
  | .BatchOneHotNodeKind =>
    ni.allInputsAndOutputsHaveSameElemKind
      [.FloatTy, .Float16Ty, .Int8QTy, .Int32ITy, .Int64ITy]
      [BatchOneHotNode.LengthsIdx] [] &&
    (ni.getInElemTy BatchOneHotNode.LengthsIdx == .Int32ITy)
  | .NNPICustomDSPNodeKind | .NNPICustomIANodeKind => true
  | .SpaceToDepthNodeKind =>
    ni.allInputsAndOutputsHaveSameElemKind
      [.FloatTy, .Float16Ty, .Int8QTy, .Int32ITy, .Int64ITy] [] []
  | .ArgMaxNodeKind =>
    ni.getOutElemTy ArgMaxNode.ResultIdx == .Int64ITy
  | .LogitNodeKind =>
    ni.allInputsAndOutputsHaveSameElemKind [.FloatTy, .Float16Ty] [] []
  | _ => false

/-- The execution-acceptance policy `NNPIBackend::acceptForExecution`:
legality refined by the rejection of unary SparseLengths(Weighted)Sum data
inputs unless the `GlowNNPIAcceptUnarySLS` flag is set.  The flag is the
first argument. -/
def acceptForExecution (acceptUnarySLS : Bool) (ni : NodeInfo) : Bool :=
  if !(isOpSupported ni) then false
  else
    match ni.kind with
    | .SparseLengthsSumNodeKind =>
      acceptUnarySLS || !(isUnaryLookup (ni.getInTy SparseLengthsSumNode.DataIdx))
    | .SparseLengthsWeightedSumNodeKind =>
      acceptUnarySLS || !(isUnaryLookup (ni.getInTy SparseLengthsWeightedSumNode.DataIdx))
    | _ => true

/-- Process-wide backend options read by `shouldLower`
(`NNPIBackend::backendOptions_`). -/
structure NNPIBackendOptions where
  useIceT : Bool
  inferOnDevice : Bool
deriving DecidableEq, Repr

/-- The legalization decision `NNPIBackend::shouldLower`.  The structural
convolution test `isConvolutionSameAsFullyConnected` lives outside this
translation unit and is passed in as `convSameAsFC`. -/
def shouldLower (opts : NNPIBackendOptions) (convSameAsFC : NodeInfo → Bool)
    (ni : NodeInfo) : Bool :=
  match ni.kind with
  | .ClipNodeKind =>
    if ni.getOutElemTy ClipNode.ResultIdx != ElemKind.Float16Ty &&
       ni.getOutElemTy ClipNode.ResultIdx != ElemKind.Int8QTy then
      true
    else
      false
  | .ConvolutionNodeKind => convSameAsFC ni
  | .FullyConnectedNodeKind | .ConcatNodeKind | .SigmoidNodeKind
  | .TanhNodeKind | .ReluNodeKind | .Convolution3DNodeKind | .TileNodeKind
  | .LogNodeKind | .ReplaceNaNNodeKind | .LocalResponseNormalizationNodeKind
  | .BatchedReduceMeanNodeKind | .BatchedReduceMinNodeKind
  | .BatchMatMulNodeKind | .BatchNormalizationNodeKind
  | .ChannelwiseQuantizedConvolutionNodeKind | .AdaptiveAvgPoolNodeKind
  | .EmbeddingBagNodeKind | .EmbeddingBagByteRowwiseOffsetsNodeKind
  | .LayerNormalizationNodeKind
  | .FusedRowwiseQuantizedSparseLengthsSumNodeKind | .PReluNodeKind => false
  | .SparseLengthsSumNodeKind =>
    if opts.useIceT || opts.inferOnDevice then true else false
  | .LogitNodeKind =>
    ni.allInputsAndOutputsHaveSameElemKind [.FloatTy] [] []
  | _ => true

/-! Required-node lowering (`lowerRequiredNodes`).  The graph surgery itself
(`lowerNode`, `createSplat`, `createSelect`) belongs to the generic graph
collaborator; the embedding records, per node, whether the rewrite fires,
returning the changed flag together with the ids of the rewritten nodes. -/

/-- Whether `lowerRequiredNodes` rewrites node `ni`: the four `dyn_cast`
blocks of the source loop (which are disjoint because a node has one kind),
each with its guard. -/
def lowerRequiredTriggers (lowerAllBatchMatMul : Bool) (ni : NodeInfo) : Bool :=
  match ni.kind with
  | .BatchMatMulNodeKind =>
    if !lowerAllBatchMatMul &&
       !(ni.allInputsAndOutputsHaveSameElemKind [.FloatTy] [] []) then
      false
    else
      true
  | .FusedRowwiseQuantizedSparseLengthsSumNodeKind =>
    if ni.getOutElemTy FusedRowwiseQuantizedSparseLengthsSumNode.ResultIdx ==
       ElemKind.Float16Ty then
      false
    else
      true
  | .PReluNodeKind =>
    if ni.getOutElemTy 0 == ElemKind.Float16Ty then false else true
  | .ConvertToNodeKind =>
    if ((ni.getOutElemTy ConvertToNode.ResultIdx == ElemKind.FloatTy) ||
        (ni.getOutElemTy ConvertToNode.ResultIdx == ElemKind.Float16Ty)) &&
       ni.getInElemTy ConvertToNode.InputIdx == ElemKind.BoolTy then
      true
    else
      false
  | _ => false

/-- The required-node lowering loop over the function body: nodes are given
as `(id, NodeInfo)` pairs; the result is the changed flag and the ids of the
nodes that were rewritten, in visit order. -/
def lowerRequiredNodes (lowerAllBatchMatMul : Bool)
    (nodes : List (Nat × NodeInfo)) : Bool × List Nat :=
  nodes.foldl
    (fun acc p =>
      if lowerRequiredTriggers lowerAllBatchMatMul p.2 then
        (true, acc.2 ++ [p.1])
      else acc)
    (false, [])

/-! Parallelization planner.  Graph nodes carry the data the planner reads:
node id, kind, the id of the node feeding input 0 (for the Relu and Clip
mirror rules), the dims of input 0 (the LHS for Mul), the dims of the
weights input (for FullyConnected) and the user count (for post-rewrite
validation). -/

/-- Parallel transform kinds (`ParallelTransformKind`). -/
inductive ParallelTransformKind where
  | None
  | Data
  | Model
deriving DecidableEq, Repr

/-- Graph node view used by the parallelization planner. -/
structure GNode where
  id : Nat
  kind : NodeKind
  inputId : Nat
  inputDims : List Nat
  weightsDims : List Nat
  numUsers : Nat
deriving DecidableEq, Repr

/-- Insert-or-assign on an association list keyed by node id (the
`DenseMap` operator-bracket assignment): overwrite the existing entry or
append a new one. -/
def mapInsert {α : Type} : List (Nat × α) → Nat → α → List (Nat × α)
  | [], k, v => [(k, v)]
  | p :: rest, k, v =>
    if p.1 == k then (k, v) :: rest else p :: mapInsert rest k v

/-- The pair of planner maps: `numChunks` and `parOpts`, both keyed by node
id. -/
abbrev ParMaps := List (Nat × Nat) × List (Nat × ParallelTransformKind)

/-- Insert a decision for node `k` into both planner maps (every assignment
in the source writes `parOpts[n]` and `numChunks[n]` together). -/
def insertBoth (st : ParMaps) (k : Nat) (pk : ParallelTransformKind)
    (n : Nat) : ParMaps :=
  (mapInsert st.1 k n, mapInsert st.2 k pk)

/-- What `setupBasicParallelizationConfigs` decides for one node, given the
whole graph `g` (for the `dyn_cast` on an input node) and the maps built so
far (for the mirror rules): `some (chunks, kind)` to insert, or `none`.
Every insertion in the source writes both maps at the visited node's own id,
so the per-node body factors into this decision plus `insertBoth`. -/
def basicParDecision (g : List GNode) (numParallelChunks : Nat)
    (st : ParMaps) (node : GNode) : Option (Nat × ParallelTransformKind) :=
  if node.kind == .FullyConnectedNodeKind then
    if 512 ≤ node.weightsDims.getD 1 0 then
      some (numParallelChunks, .Model)
    else if 256 ≤ node.inputDims.getD 0 0 then
      some (numParallelChunks, .Data)
    else none
  else if node.kind == .ReluNodeKind then
    let inputIsFC :=
      match g.find? (fun m => m.id == node.inputId) with
      | some inp => inp.kind == .FullyConnectedNodeKind
      | none => false
    if !inputIsFC then
      if (st.1.lookup node.inputId).isSome && (st.2.lookup node.inputId).isSome then
        some (numParallelChunks, .Data)
      else none
    else if node.inputDims.length < 2 then none
    else if 512 ≤ node.inputDims.getD 1 0 then
      some (numParallelChunks, .Model)
    else if 256 ≤ node.inputDims.getD 0 0 then
      some (numParallelChunks, .Data)
    else none
  else if node.kind == .TransposeNodeKind then some (numParallelChunks, .Data)
  else if node.kind == .QuantizeNodeKind then some (numParallelChunks, .Data)
  else if node.kind == .DequantizeNodeKind then some (numParallelChunks, .Data)
  else if node.kind == .BatchMatMulNodeKind then some (numParallelChunks, .Data)
  else if node.kind == .TanhNodeKind then
    if node.inputDims.length < 2 then none
    else if node.inputDims.getD 1 0 < 4096 then none
    else some (numParallelChunks, .Data)
  else if node.kind == .MulNodeKind then
    if node.inputDims.length < 2 then none
    else if node.inputDims.getD 1 0 < 4096 then none
    else some (numParallelChunks, .Data)
  else if node.kind == .ClipNodeKind then
    match st.1.lookup node.inputId, st.2.lookup node.inputId with
    | some nc, some pk => some (nc, pk)
    | _, _ => none
  else none

/-- One step of the heuristic planning walk. -/
def basicParStep (g : List GNode) (numParallelChunks : Nat) (st : ParMaps)
    (node : GNode) : ParMaps :=
  match basicParDecision g numParallelChunks st node with
  | some (nc, pk) => insertBoth st node.id pk nc
  | none => st

/-- Heuristic parallelization planning
(`setupBasicParallelizationConfigs`): the graph list `g` is the post-order
node enumeration produced by `GraphPostOrderVisitor` (inputs before
outputs). -/
def setupBasicParallelizationConfigs (g : List GNode)
    (numParallelChunks : Nat) : ParMaps :=
  g.foldl (basicParStep g numParallelChunks) ([], [])

/-! Directive-driven planning.  Annotations are string-keyed multi-value
maps per node id (`BackendSpecificNodeInfo` restricted to one function). -/

/-- Per-node annotation map: key to list of values. -/
abbrev NodeAnnotations := List (String × List String)

/-- Annotation key for the transform kind. -/
def parallelTransformKindKey : String := "parallelTransformKind"

/-- Annotation key for the chunk count. -/
def numParallelChunksKey : String := "numParallelChunks"

/-- Annotation key for core assignments (placement). -/
def coreAssignmentsKey : String := "coreAssignments"

/-- Annotation key for core assignment suffixes (placement). -/
def coreAssignmentsSuffixKey : String := "coreAssignmentsSuffix"

/-- Annotation key for extra edge target names (placement). -/
def extraEdgesTargetNameKey : String := "extraEdgesTargetName"

/-- Annotation key for extra edge target suffixes (placement). -/
def extraEdgesTargetSuffixKey : String := "extraEdgesTargetSuffix"

/-- Annotation key for extra edge source suffixes (placement). -/
def extraEdgesSourceSuffixKey : String := "extraEdgesSourceSuffix"

/-- Digit-string parser used by the integer parsing helper: all characters
must be decimal digits. -/
def parseNatDigits (l : List Char) : Option Nat :=
  if l ≠ [] ∧ l.all (fun c => c.isDigit) then
    some (l.foldl (fun n c => n * 10 + (c.toNat - '0'.toNat)) 0)
  else none

/-- Modelled from the spec: `getIntFromStr`, the integer parsing helper from
the support library (outside this backend); parses an optional minus sign
followed by decimal digits, failing on non-integer strings. -/
def getIntFromStr (s : String) : Option Int :=
  match s.data with
  | [] => none
  | c :: cs =>
    if c = '-' then (parseNatDigits cs).map (fun v => -(v : Int))
    else (parseNatDigits (c :: cs)).map (fun v => (v : Int))

/-- The per-node directive reading loop of
`setupPerNodeParallelizationConfigs`, walking the function's nodes and
accumulating the two planner maps; any malformed directive aborts with an
error. -/
def setupPerNodeLoop (currFunInfo : List (Nat × NodeAnnotations)) :
    List GNode → ParMaps → Except String ParMaps
  | [], st => .ok st
  | node :: rest, st =>
    match currFunInfo.lookup node.id with
    | none => setupPerNodeLoop currFunInfo rest st
    | some ann =>
      match ann.lookup parallelTransformKindKey with
      | none => setupPerNodeLoop currFunInfo rest st
      | some vals =>
        if vals.length = 1 then
          let pKindStr := vals.headD ""
          let proceed : ParallelTransformKind → Except String ParMaps :=
            fun pKind =>
              match ann.lookup numParallelChunksKey with
              | none =>
                .error (numParallelChunksKey ++ " and " ++
                  parallelTransformKindKey ++ " must be specified together.")
              | some cvals =>
                if cvals.length = 1 then
                  match getIntFromStr (cvals.headD "") with
                  | none => .error "Expected integer for numParallelChunks"
                  | some numChunks =>
                    if 1 < numChunks then
                      setupPerNodeLoop currFunInfo rest
                        (mapInsert st.1 node.id numChunks.toNat,
                         mapInsert st.2 node.id pKind)
                    else .error "numChunks must be > 1."
                else
                  .error ("Expected single value for " ++ numParallelChunksKey)
          if pKindStr = "Data" then proceed .Data
          else if pKindStr = "Model" then proceed .Model
          else if pKindStr = "None" then setupPerNodeLoop currFunInfo rest st
          else
            .error (parallelTransformKindKey ++ " " ++ pKindStr ++
              " not supported.")
        else .error ("Expected single value for " ++ parallelTransformKindKey)

/-- Directive-driven planning (`setupPerNodeParallelizationConfigs`) for one
function, given that function's entry of `backendSpecificNodeInfo`. -/
def setupPerNodeParallelizationConfigs (F : List GNode)
    (currFunInfo : List (Nat × NodeAnnotations)) : Except String ParMaps :=
  setupPerNodeLoop currFunInfo F ([], [])

/-! Post-rewrite validation (`validateBackendSpecificNodeInfo`). -/

/-- Erase the (first) entry for key `k` from a per-function annotation map
(`currFunInfo.erase(curNodeInfoIt)`). -/
def eraseEntry (m : List (Nat × NodeAnnotations)) (k : Nat) :
    List (Nat × NodeAnnotations) :=
  m.eraseP (fun p => p.1 == k)

/-- Annotation map left after the per-rewrite records of `replaced` are
purged, in order. -/
def purgeReplaced (replaced : List (GNode × Nat))
    (info : List (Nat × NodeAnnotations)) : List (Nat × NodeAnnotations) :=
  replaced.foldl (fun acc p => eraseEntry acc p.1.id) info

/-- Check that a node's surviving annotations hold none of the
parallelization or placement keys (the seven residual-key assertions of the
second validation loop). -/
def checkNoResidual (ann : NodeAnnotations) : Bool :=
  !(ann.lookup parallelTransformKindKey).isSome &&
  !(ann.lookup numParallelChunksKey).isSome &&
  !(ann.lookup coreAssignmentsKey).isSome &&
  !(ann.lookup coreAssignmentsSuffixKey).isSome &&
  !(ann.lookup extraEdgesTargetNameKey).isSome &&
  !(ann.lookup extraEdgesTargetSuffixKey).isSome &&
  !(ann.lookup extraEdgesSourceSuffixKey).isSome

/-- First loop of `validateBackendSpecificNodeInfo`: for each replaced node
(paired with the input count of the concatenation that replaced it), check
the node is unused, find its annotation record, check the recorded chunk
count matches the concatenation's input count, and erase the record. -/
def validateReplacedLoop :
    List (GNode × Nat) → List (Nat × NodeAnnotations) →
    Except String (List (Nat × NodeAnnotations))
  | [], info => .ok info
  | (n, concatInputs) :: rest, info =>
    if n.numUsers ≠ 0 then
      .error "Replaced Node should no longer be used in the Function."
    else
      match info.lookup n.id with
      | none =>
        .error "Only should have parallelized if backendSpecificNodeInfo said so."
      | some ann =>
        match ann.lookup numParallelChunksKey with
        | none => .error "Must have corresponding numParallelChunks."
        | some vals =>
          if vals.length = 1 then
            match getIntFromStr (vals.headD "") with
            | none => .error "Expected integer for numParallelChunks"
            | some numParChunksVal =>
              if numParChunksVal = (concatInputs : Int) then
                validateReplacedLoop rest (eraseEntry info n.id)
              else .error "Node not split the expected number of times."
          else .error "Expected a single value for numParallelChunks"

/-- Post-rewrite validation for directive-driven parallelization
(`validateBackendSpecificNodeInfo`): run the per-rewrite loop, then check
that no node remaining in the function carries a residual parallelization
or placement key. -/
def validateBackendSpecificNodeInfo (fNodes : List GNode)
    (replaced : List (GNode × Nat)) (currFunInfo : List (Nat × NodeAnnotations)) :
    Except String Unit :=
  match validateReplacedLoop replaced currFunInfo with
  | .error e => .error e
  | .ok info2 =>
    if fNodes.all (fun v =>
        match info2.lookup v.id with
        | none => true
        | some ann => checkNoResidual ann) then
      .ok ()
    else .error "Node should not have residual parallelization or placement info"

/-! The per-function parallelization driver (`parallelizeFunction`). -/

/-- Compile options visible to `parallelizeFunction`: the (per-function)
backend-specific node annotations and the string-keyed backend options. -/
structure BackendOptions where
  backendSpecificNodeInfo : Option (List (Nat × NodeAnnotations))
  backendSpecificOpts : List (String × String)

/-- The effective heuristic chunk count: the `GlowNNPINumParallelChunks`
flag when nonzero, else the `NNPINumParallelChunks` backend option when
present (a parse failure is an error), else the flag value 0. -/
def effectiveParallelChunks (glowNumParallelChunks : Int)
    (opts : BackendOptions) : Except String Int :=
  if glowNumParallelChunks ≠ 0 then .ok glowNumParallelChunks
  else
    match opts.backendSpecificOpts.lookup "NNPINumParallelChunks" with
    | none => .ok glowNumParallelChunks
    | some s =>
      match getIntFromStr s with
      | none => .error "Expected integer for NNPINumParallelChunks"
      | some v => .ok v

/-- The signature of the generic rewrite primitive `parallelizeOps` (it
lives in the graph-optimizer collaborator): from the function, the two
planner maps and the default chunk count it produces the rewritten function
and the replaced-node map. -/
abbrev ParallelizeOpsFn :=
  List GNode → List (Nat × Nat) → List (Nat × ParallelTransformKind) → Int →
  Except String (List GNode × List (GNode × Nat))

/-- Parallelize one function (`parallelizeFunction`): directive-driven when
`usePerNodeParallelizationSpec`, heuristic otherwise; returns whether the
function was modified, together with the (possibly rewritten) function. -/
def parallelizeFunction (parallelizeOps : ParallelizeOpsFn)
    (glowNumParallelChunks : Int) (F : List GNode) (opts : BackendOptions)
    (usePerNodeParallelizationSpec : Bool) :
    Except String (Bool × List GNode) :=
  let runTail : ParMaps → Int → Option (List (Nat × NodeAnnotations)) →
      Except String (Bool × List GNode) :=
    fun st defaultNumParallelChunks funInfo =>
      if st.1.length = st.2.length then
        if st.1.length = 0 then .ok (false, F)
        else
          match parallelizeOps F st.1 st.2 defaultNumParallelChunks with
          | .error e => .error e
          | .ok (F2, replacedMap) =>
            if st.1.length = replacedMap.length then
              if usePerNodeParallelizationSpec then
                match funInfo with
                | some fi =>
                  match validateBackendSpecificNodeInfo F2 replacedMap fi with
                  | .error e => .error e
                  | .ok _ => .ok (true, F2)
                | none => .ok (true, F2)
              else .ok (true, F2)
            else .error "Expected that numChunks and replacedMap have same size."
      else .error "Require that numChunks and parOpts have same size."
  if usePerNodeParallelizationSpec then
    match opts.backendSpecificNodeInfo with
    | none => .ok (false, F)
    | some funInfo =>
      match setupPerNodeParallelizationConfigs F funInfo with
      | .error e => .error e
      | .ok st => runTail st 1 (some funInfo)
  else
    match effectiveParallelChunks glowNumParallelChunks opts with
    | .error e => .error e
    | .ok d =>
      if d ≤ 1 then .ok (false, F)
      else runTail (setupBasicParallelizationConfigs F d.toNat) d none

/-! The post-lowering transform entry point
(`NNPIBackend::transformPostLowering`).  The three sub-transforms
(`removeClipsBlockingFusion`, `lowerRequiredNodes`, the heuristic
`parallelizeFunction` invocation) are threaded through as functions on the
function representation, so the statement that the disable flag suppresses
them holds for every behavior they may have.  The `FACEBOOK_INTERNAL`
section of the source is compiled out here. -/

/-- Control flow of `transformPostLowering`: early return on the
`GlowDisableNNPITransforms` flag, otherwise run the clip removal, required
lowering and heuristic parallelization in order, accumulating the changed
flag. -/
def transformPostLowering {Fn : Type} (disableNNPITransforms : Bool)
    (removeClipsBlockingFusionFn : Fn → Bool × Fn)
    (lowerRequiredNodesFn : Fn → Bool × Fn)
    (parallelizeFunctionFn : Fn → Except String (Bool × Fn)) (F : Fn) :
    Except String (Bool × Fn) :=
  if disableNNPITransforms then .ok (false, F)
  else
    let r1 := removeClipsBlockingFusionFn F
    let r2 := lowerRequiredNodesFn r1.2
    match parallelizeFunctionFn r2.2 with
    | .error e => .error e
    | .ok r3 => .ok (r1.1 || r2.1 || r3.1, r3.2)

/-! Partition resource binder (`NNPIBackend::bindContexts`). -/

/-- Device DAG node: partition name, target backend name, children.  The
DAG is given as a rooted tree; sharing in the original pointer graph is
handled by the visited set of the traversal, keyed here by name. -/
inductive DAGNode where
  | node (name : String) (backendName : String) (children : List DAGNode)

/-- Name of a DAG node. -/
def DAGNode.name : DAGNode → String
  | .node nm _ _ => nm

/-- Per-placeholder usage record (`runtime::PlaceholderUsage`, restricted to
the fields this translation unit touches; the live tensor handle is bound by
the external device manager). -/
structure PlaceholderUsage where
  numWriters : Nat
  disableP2P : Bool
  disableDRT : Bool
deriving DecidableEq, Repr

/-- A context binding: partition (network) name, the writer counts its
device manager reports per placeholder (modelled from the spec:
`NNPIDeviceManager::addPlaceholderUsageCount` is external and accumulates,
per placeholder name, the number of writer partitions), and whether the
device's `bindContext` call succeeds for it. -/
structure ContextBinding where
  networkName : String
  writerCounts : List (String × Nat)
  bindOk : Bool

/-- Add one placeholder's writer-count contribution into the usage table. -/
def addUsageCount (m : List (String × PlaceholderUsage)) (k : String)
    (c : Nat) : List (String × PlaceholderUsage) :=
  if m.any (fun p => p.1 == k) then
    m.map (fun p =>
      if p.1 == k then
        (p.1, PlaceholderUsage.mk (p.2.numWriters + c) p.2.disableP2P p.2.disableDRT)
      else p)
  else m ++ [(k, PlaceholderUsage.mk c false false)]

/-- Accumulate the placeholder usage table over all bindings (the first
loop of `bindContexts`). -/
def accumulateUsage (bindings : List ContextBinding) :
    List (String × PlaceholderUsage) :=
  bindings.foldl
    (fun m cb => cb.writerCounts.foldl (fun m2 p => addUsageCount m2 p.1 p.2) m)
    []

/-- The writer-conflict check and capability marking (the second loop of
`bindContexts`): reject any usage with two or more writers, and mark each
record with the global peer-to-peer and direct-remote-transfer flags. -/
def checkAndMarkUsage :
    List (String × PlaceholderUsage) → Bool → Bool →
    Except String (List (String × PlaceholderUsage))
  | [], _, _ => .ok []
  | (nm, u) :: rest, enableP2P, enableDRT =>
    if u.numWriters < 2 then
      match checkAndMarkUsage rest enableP2P enableDRT with
      | .error e => .error e
      | .ok rest2 =>
        .ok ((nm, PlaceholderUsage.mk u.numWriters (!enableP2P) (!enableDRT)) :: rest2)
    else .error "Multiple writes to the same placeholder not suported"

mutual

/-- Post-order DAG traversal (`traversePostOrder`): visit a node, walk its
unvisited children, then append the node; carries the visited-name set and
returns the `(name, backendName)` post-order list. -/
def traverseNodePostOrder (visited : List String) :
    DAGNode → List String × List (String × String)
  | .node nm be cs =>
    let r := traverseChildrenPostOrder (nm :: visited) cs
    (r.1, r.2 ++ [(nm, be)])

/-- Children walk of the post-order DAG traversal, skipping visited nodes. -/
def traverseChildrenPostOrder (visited : List String) :
    List DAGNode → List String × List (String × String)
  | [] => (visited, [])
  | c :: rest =>
    let r1 :=
      if visited.contains c.name then (visited, [])
      else traverseNodePostOrder visited c
    let r2 := traverseChildrenPostOrder r1.1 rest
    (r2.1, r1.2 ++ r2.2)

end

/-- The per-node binding loop of `bindContexts` (the third loop): walk the
post-order list, skip partitions of other backends and partitions with no
matching binding, and issue the device `bindContext` call for the rest.
Returns the names of the partitions a bind call was issued for, and the
outcome (a failed bind call aborts). -/
def bindLoop (bindings : List ContextBinding) :
    List (String × String) → List String → List String × Except String Unit
  | [], calls => (calls, .ok ())
  | (nm, be) :: rest, calls =>
    if be == "NNPI" then
      match bindings.find? (fun cb => cb.networkName == nm) with
      | none => bindLoop bindings rest calls
      | some cb =>
        if cb.bindOk then bindLoop bindings rest (calls ++ [nm])
        else (calls ++ [nm], .error "Failed to bind context")
    else bindLoop bindings rest calls

/-- The partition resource binder (`NNPIBackend::bindContexts`): traverse
the DAG post-order, accumulate placeholder usage over the bindings, reject
multi-writer placeholders, mark the capability flags, then bind each NNPI
partition in post-order.  The result pairs the list of partitions a device
bind call was issued for with the overall outcome. -/
def bindContexts (bindings : List ContextBinding) (root : DAGNode)
    (enableP2P enableDRT : Bool) : List String × Except String Unit :=
  let postOrd := (traverseNodePostOrder [] root).2
  let phUsage := accumulateUsage bindings
  match checkAndMarkUsage phUsage enableP2P enableDRT with
  | .error e => ([], .error e)
  | .ok _marked => bindLoop bindings postOrd []

/-! ## Helper lemmas -/

/-- Lookup after an insert-or-assign: the inserted key maps to the new
value, all others are untouched. -/
theorem lookup_mapInsert {α : Type} (m : List (Nat × α)) (k : Nat) (v : α)
    (j : Nat) :
    (mapInsert m k v).lookup j = if j = k then some v else m.lookup j := by
  induction m with
  | nil =>
    by_cases h : j = k
    · simp [mapInsert, List.lookup, h]
    · simp [mapInsert, List.lookup, h, beq_false_of_ne h]
  | cons p rest ih =>
    cases hpk : (p.1 == k) with
    | true =>
      have hpk2 : p.1 = k := by simpa using hpk
      by_cases hj : j = k
      · simp [mapInsert, hpk, List.lookup, hj]
      · have h1 : (j == k) = false := beq_false_of_ne hj
        have h2 : (j == p.1) = false := beq_false_of_ne (by rw [hpk2]; exact hj)
        simp [mapInsert, hpk, List.lookup, h1, h2, hj]
    | false =>
      have hp2 : p.1 ≠ k := by simpa using hpk
      by_cases hj : j = p.1
      · have h1 : (j == p.1) = true := by simpa using hj
        have hjk : j ≠ k := by rw [hj]; exact hp2
        simp [mapInsert, hpk, List.lookup, h1, hjk]
      · have h1 : (j == p.1) = false := beq_false_of_ne hj
        simp [mapInsert, hpk, List.lookup, h1, ih]

/-- Membership characterization of the required-node lowering fold. -/
theorem lowerRequiredNodes_foldl_char (flag : Bool)
    (nodes : List (Nat × NodeInfo)) (acc : Bool × List Nat) :
    nodes.foldl
        (fun acc p =>
          if lowerRequiredTriggers flag p.2 then (true, acc.2 ++ [p.1]) else acc)
        acc =
      (acc.1 || nodes.any (fun p => lowerRequiredTriggers flag p.2),
       acc.2 ++ (nodes.filter (fun p => lowerRequiredTriggers flag p.2)).map
         (fun p => p.1)) := by
  induction nodes generalizing acc with
  | nil => simp
  | cons p rest ih =>
    by_cases hp : lowerRequiredTriggers flag p.2 <;>
      simp [List.foldl_cons, hp, ih, List.filter_cons, Bool.or_assoc]

/-- A batched-matmul node triggers required lowering exactly when the
force-lower flag is set or all its tensors are 32-bit float. -/
theorem lowerRequiredTriggers_bmm (flag : Bool) (ni : NodeInfo)
    (hk : ni.kind = NodeKind.BatchMatMulNodeKind) :
    lowerRequiredTriggers flag ni =
      (flag || ni.allInputsAndOutputsHaveSameElemKind [ElemKind.FloatTy] [] []) := by
  cases hf : flag <;>
    cases ha : ni.allInputsAndOutputsHaveSameElemKind [ElemKind.FloatTy] [] [] <;>
      simp [lowerRequiredTriggers, hk, hf, ha]

/-! ## Claims -/

/-- C10: when the `GlowDisableNNPITransforms` flag is set,
`transformPostLowering` returns false immediately and leaves the function
unchanged, whatever the clip-removal, required-node-lowering and heuristic
parallelization passes would have done. -/
theorem transformPostLowering_disabled {Fn : Type}
    (removeClipsBlockingFusionFn lowerRequiredNodesFn : Fn → Bool × Fn)
    (parallelizeFunctionFn : Fn → Except String (Bool × Fn)) (F : Fn) :
    transformPostLowering true removeClipsBlockingFusionFn
        lowerRequiredNodesFn parallelizeFunctionFn F = .ok (false, F) := rfl

/-- A logit node whose tensors are all 16-bit float. -/
def logitFp16 : NodeInfo :=
  ⟨.LogitNodeKind, [⟨.Float16Ty, [4]⟩], [⟨.Float16Ty, [4]⟩]⟩

/-- C2 counterexample: a logit node whose tensors are not all 32-bit float
(they are 16-bit float) is NOT lowered — `shouldLower` returns false —
while the claim predicts it is lowered. -/
theorem shouldLower_logit_counterexample :
    logitFp16.kind = NodeKind.LogitNodeKind ∧
    logitFp16.allInputsAndOutputsHaveSameElemKind [ElemKind.FloatTy] [] [] = false ∧
    shouldLower ⟨false, false⟩ (fun _ => false) logitFp16 = false := by
  decide

/-- C2 amended: a logit op is lowered exactly when all of its input and
output tensors are 32-bit float (the source returns
`allInputsAndOutputsHaveSameElemKind(FloatTy)` for logit). -/
theorem shouldLower_logit_amended (opts : NNPIBackendOptions)
    (convSameAsFC : NodeInfo → Bool) (ni : NodeInfo)
    (hk : ni.kind = NodeKind.LogitNodeKind) :
    (shouldLower opts convSameAsFC ni = true ↔
      ni.allInputsAndOutputsHaveSameElemKind [ElemKind.FloatTy] [] [] = true) := by
  simp [shouldLower, hk]

/-- A logit node whose tensors are all 32-bit float. -/
def logitFp32 : NodeInfo :=
  ⟨.LogitNodeKind, [⟨.FloatTy, [4]⟩], [⟨.FloatTy, [4]⟩]⟩

/-- C2 amended, witness: the all-float32 logit node is lowered. -/
theorem shouldLower_logit_amended_witness :
    shouldLower ⟨false, false⟩ (fun _ => false) logitFp32 = true :=
  (shouldLower_logit_amended ⟨false, false⟩ (fun _ => false) logitFp32
    rfl).mpr (by decide)

/-- A batched-matmul node whose tensors are all 8-bit quantized. -/
def bmmInt8 : NodeInfo :=
  ⟨.BatchMatMulNodeKind,
   [⟨.Int8QTy, [2, 3, 4]⟩, ⟨.Int8QTy, [2, 4, 5]⟩],
   [⟨.Int8QTy, [2, 3, 5]⟩]⟩

/-- C3 counterexample: with the force-lower flag unset, a batched-matmul
node none of whose tensors is floating point is NOT decomposed by
`lowerRequiredNodes` — the function reports graph-unchanged — while the
claim predicts every batched-matmul that is not all-float-and-native is
decomposed. -/
theorem lowerRequiredNodes_bmm_counterexample :
    bmmInt8.kind = NodeKind.BatchMatMulNodeKind ∧
    (∀ t ∈ bmmInt8.inputs ++ bmmInt8.outputs,
      t.elemKind ≠ ElemKind.FloatTy ∧ t.elemKind ≠ ElemKind.Float16Ty) ∧
    lowerRequiredNodes false [(0, bmmInt8)] = (false, []) := by
  decide

/-- C3 amended: during required-node lowering a batched-matmul node is
decomposed exactly when the force-lower-all-batched-matmul flag is set or
all of the node's tensors are 32-bit float, and the rewrite reports a
changed graph exactly when at least one node was rewritten. -/
theorem lowerRequiredNodes_amended (flag : Bool)
    (nodes : List (Nat × NodeInfo))
    (hnodup : (nodes.map (fun p => p.1)).Nodup) :
    (∀ p ∈ nodes, p.2.kind = NodeKind.BatchMatMulNodeKind →
      (p.1 ∈ (lowerRequiredNodes flag nodes).2 ↔
        (flag = true ∨
         p.2.allInputsAndOutputsHaveSameElemKind [ElemKind.FloatTy] [] [] = true))) ∧
    ((lowerRequiredNodes flag nodes).1 = false ↔
      (lowerRequiredNodes flag nodes).2 = []) := by
  have hchar := lowerRequiredNodes_foldl_char flag nodes (false, [])
  constructor
  · intro p hp hk
    rw [lowerRequiredNodes, hchar]
    simp only [List.nil_append, List.mem_map]
    constructor
    · rintro ⟨q, hq, hid⟩
      have hqmem : q ∈ nodes := (List.mem_filter.mp hq).1
      have htrig0 : lowerRequiredTriggers flag q.2 = true :=
        (List.mem_filter.mp hq).2
      have hqp : q = p := List.inj_on_of_nodup_map hnodup hqmem hp hid
      rw [hqp] at htrig0
      rw [lowerRequiredTriggers_bmm flag p.2 hk] at htrig0
      rcases Bool.or_eq_true_iff.mp htrig0 with h | h
      · exact Or.inl h
      · exact Or.inr h
    · intro h
      refine ⟨p, ?_, rfl⟩
      apply List.mem_filter.mpr
      refine ⟨hp, ?_⟩
      rw [lowerRequiredTriggers_bmm flag p.2 hk]
      rcases h with h | h <;> simp [h]
  · rw [lowerRequiredNodes, hchar]
    simp [List.filter_eq_nil_iff]

/-- A batched-matmul node whose tensors are all 32-bit float. -/
def bmmFp32 : NodeInfo :=
  ⟨.BatchMatMulNodeKind,
   [⟨.FloatTy, [2, 3, 4]⟩, ⟨.FloatTy, [2, 4, 5]⟩],
   [⟨.FloatTy, [2, 3, 5]⟩]⟩

/-- C3 amended, witness: with the flag unset, an all-float32 batched-matmul
is decomposed. -/
theorem lowerRequiredNodes_amended_witness :
    0 ∈ (lowerRequiredNodes false [(0, bmmFp32)]).2 :=
  ((lowerRequiredNodes_amended false [(0, bmmFp32)] (by decide)).1
    (0, bmmFp32) (by decide) rfl).mpr (Or.inr (by decide))

/-- C4: for a supported SparseLengths(Weighted)Sum node,
`acceptForExecution` rejects a unary data input when the accept-unary flag
is unset and accepts when the flag is set; for every other kind it agrees
with `isOpSupported`. -/
theorem acceptForExecution_policy (acceptUnarySLS : Bool) (ni : NodeInfo) :
    (ni.kind = NodeKind.SparseLengthsSumNodeKind →
      isOpSupported ni = true →
      ((acceptUnarySLS = false →
          isUnaryLookup (ni.getInTy SparseLengthsSumNode.DataIdx) = true →
          acceptForExecution acceptUnarySLS ni = false) ∧
       (acceptUnarySLS = true → acceptForExecution acceptUnarySLS ni = true))) ∧
    (ni.kind = NodeKind.SparseLengthsWeightedSumNodeKind →
      isOpSupported ni = true →
      ((acceptUnarySLS = false →
          isUnaryLookup (ni.getInTy SparseLengthsWeightedSumNode.DataIdx) = true →
          acceptForExecution acceptUnarySLS ni = false) ∧
       (acceptUnarySLS = true → acceptForExecution acceptUnarySLS ni = true))) ∧
    (ni.kind ≠ NodeKind.SparseLengthsSumNodeKind →
     ni.kind ≠ NodeKind.SparseLengthsWeightedSumNodeKind →
     acceptForExecution acceptUnarySLS ni = isOpSupported ni) := by
  refine ⟨?_, ?_, ?_⟩
  · intro hk hs
    exact ⟨fun hf hu => by simp [acceptForExecution, hs, hk, hf, hu],
           fun ht => by simp [acceptForExecution, hs, hk, ht]⟩
  · intro hk hs
    exact ⟨fun hf hu => by simp [acceptForExecution, hs, hk, hf, hu],
           fun ht => by simp [acceptForExecution, hs, hk, ht]⟩
  · intro h1 h2
    by_cases hs : isOpSupported ni = true
    · rw [hs]
      simp only [acceptForExecution, hs]
      cases hk : ni.kind <;> simp_all
    · have hs2 : isOpSupported ni = false := by simpa using hs
      rw [hs2]
      simp [acceptForExecution, hs2]

/-- A supported SparseLengthsSum node whose data input is unary. -/
def slsUnary : NodeInfo :=
  ⟨.SparseLengthsSumNodeKind,
   [⟨.FloatTy, [5, 1]⟩, ⟨.Int64ITy, [10]⟩, ⟨.Int32ITy, [3]⟩],
   [⟨.FloatTy, [3, 1]⟩]⟩

/-- C4 witness: the unary SparseLengthsSum node is supported, rejected with
the flag unset, accepted with the flag set. -/
theorem acceptForExecution_policy_witness :
    isOpSupported slsUnary = true ∧
    acceptForExecution false slsUnary = false ∧
    acceptForExecution true slsUnary = true :=
  ⟨by decide,
   ((acceptForExecution_policy false slsUnary).1 rfl (by decide)).1 rfl (by decide),
   ((acceptForExecution_policy true slsUnary).1 rfl (by decide)).2 rfl⟩

/-- The indexed-gather-style operation kinds subject to the 65536-index
bound. -/
def indexedGatherKinds : List NodeKind :=
  [.SparseLengthsSumNodeKind, .SparseLengthsWeightedSumNodeKind,
   .EmbeddingBagNodeKind, .EmbeddingBagByteRowwiseOffsetsNodeKind,
   .FusedRowwiseQuantizedSparseLengthsSumNodeKind,
   .FusedRowwiseQuantizedSparseLengthsWeightedSumNodeKind,
   .RowwiseQuantizedSparseLengthsWeightedSumNodeKind]

/-- Input port of the indices operand for each indexed-gather-style kind. -/
def slsIndicesInputIdx : NodeKind → Nat
  | .SparseLengthsSumNodeKind => SparseLengthsSumNode.IndicesIdx
  | .SparseLengthsWeightedSumNodeKind => SparseLengthsWeightedSumNode.IndicesIdx
  | .EmbeddingBagNodeKind => EmbeddingBagNode.IndicesIdx
  | .EmbeddingBagByteRowwiseOffsetsNodeKind =>
    EmbeddingBagByteRowwiseOffsetsNode.IndicesIdx
  | .FusedRowwiseQuantizedSparseLengthsSumNodeKind =>
    FusedRowwiseQuantizedSparseLengthsSumNode.IndicesIdx
  | .FusedRowwiseQuantizedSparseLengthsWeightedSumNodeKind =>
    FusedRowwiseQuantizedSparseLengthsWeightedSumNode.IndicesIdx
  | .RowwiseQuantizedSparseLengthsWeightedSumNodeKind =>
    RowwiseQuantizedSparseLengthsWeightedSumNode.IndicesIdx
  | _ => 0

/-- An invalid indices type (not one-dimensional, or at least 65536
elements) falsifies `isSLSIndicesValid`. -/
theorem isSLSIndicesValid_false (t : TensorType)
    (h : t.dims.length ≠ 1 ∨ ¬(t.dims.getD 0 0 < 65536)) :
    isSLSIndicesValid t = false := by
  rcases h with h | h
  · unfold isSLSIndicesValid
    rw [beq_false_of_ne h, Bool.false_and]
  · unfold isSLSIndicesValid
    rw [decide_eq_false h, Bool.and_false]

/-- C5: for every indexed-gather-style kind, `isOpSupported` returns false
whenever the indices input is not one-dimensional with strictly fewer than
65536 elements. -/
theorem isOpSupported_indicesBound (ni : NodeInfo)
    (hk : ni.kind ∈ indexedGatherKinds)
    (hbad : (ni.getInTy (slsIndicesInputIdx ni.kind)).dims.length ≠ 1 ∨
      ¬((ni.getInTy (slsIndicesInputIdx ni.kind)).dims.getD 0 0 < 65536)) :
    isOpSupported ni = false := by
  simp only [indexedGatherKinds, List.mem_cons, List.not_mem_nil,
    or_false] at hk
  rcases hk with hk | hk | hk | hk | hk | hk | hk <;>
  · simp only [slsIndicesInputIdx, hk] at hbad
    have hf := isSLSIndicesValid_false _ hbad
    simp [isOpSupported, hk, hf]

/-- A SparseLengthsSum node with 70000 indices. -/
def slsBigIndices : NodeInfo :=
  ⟨.SparseLengthsSumNodeKind,
   [⟨.FloatTy, [5, 4]⟩, ⟨.Int64ITy, [70000]⟩, ⟨.Int32ITy, [3]⟩],
   [⟨.FloatTy, [3, 4]⟩]⟩

/-- C5 witness: the 70000-index SparseLengthsSum node is unsupported. -/
theorem isOpSupported_indicesBound_witness :
    isOpSupported slsBigIndices = false :=
  isOpSupported_indicesBound slsBigIndices
    (by simp [slsBigIndices, indexedGatherKinds]) (by decide)

end NNPI

namespace NNPI

/-- A usage table containing a record with two or more writers makes the
writer-conflict check fail. -/
theorem checkAndMarkUsage_error (l : List (String × PlaceholderUsage))
    (enableP2P enableDRT : Bool) (e : String × PlaceholderUsage)
    (hmem : e ∈ l) (hw : 2 ≤ e.2.numWriters) :
    checkAndMarkUsage l enableP2P enableDRT =
      .error "Multiple writes to the same placeholder not suported" := by
  induction l with
  | nil => cases hmem
  | cons p rest ih =>
    rcases List.mem_cons.mp hmem with hp | hp
    · have hw2 : 2 ≤ p.2.numWriters := hp ▸ hw
      have hnlt : ¬p.2.numWriters < 2 := Nat.not_lt.mpr hw2
      cases p with
      | mk nm u => simp only [checkAndMarkUsage]; rw [if_neg (by simpa using hnlt)]
    · cases p with
      | mk nm u =>
        by_cases hu : u.numWriters < 2
        · simp only [checkAndMarkUsage]
          rw [if_pos hu, ih hp]
        · simp only [checkAndMarkUsage]
          rw [if_neg hu]

/-- C1: if some placeholder accumulates a writer count of two or more
across all bindings, `bindContexts` returns the multi-writer error and
issues no per-node device bind call. -/
theorem bindContexts_writerConflict (bindings : List ContextBinding)
    (root : DAGNode) (enableP2P enableDRT : Bool) (ph : String)
    (u : PlaceholderUsage) (hmem : (ph, u) ∈ accumulateUsage bindings)
    (hw : 2 ≤ u.numWriters) :
    bindContexts bindings root enableP2P enableDRT =
      ([], .error "Multiple writes to the same placeholder not suported") := by
  have h := checkAndMarkUsage_error (accumulateUsage bindings) enableP2P
    enableDRT (ph, u) hmem hw
  simp only [bindContexts, h]

/-- Two bindings that each declare one write to placeholder `W`. -/
def conflictingBindings : List ContextBinding :=
  [⟨"part0", [("W", 1)], true⟩, ⟨"part1", [("W", 1)], true⟩]

/-- C1 witness: binding the two conflicting partitions fails with the
multi-writer error and performs no bind call. -/
theorem bindContexts_writerConflict_witness :
    bindContexts conflictingBindings (DAGNode.node "root" "NNPI" []) true true =
      ([], .error "Multiple writes to the same placeholder not suported") :=
  bindContexts_writerConflict conflictingBindings
    (DAGNode.node "root" "NNPI" []) true true "W" ⟨2, false, false⟩
    (by decide) (by decide)

end NNPI

namespace NNPI

/-- One heuristic planning step only writes the visited node's own id. -/
theorem basicParStep_frame (g : List GNode) (N : Nat) (st : ParMaps)
    (node : GNode) (j : Nat) (h : j ≠ node.id) :
    ((basicParStep g N st node).1.lookup j = st.1.lookup j) ∧
    ((basicParStep g N st node).2.lookup j = st.2.lookup j) := by
  unfold basicParStep
  cases hd : basicParDecision g N st node with
  | none => exact ⟨rfl, rfl⟩
  | some p =>
    cases p with
    | mk nc pk => constructor <;> simp [insertBoth, lookup_mapInsert, h]

/-- The heuristic planning walk leaves ids outside the walked suffix
untouched. -/
theorem foldl_basicPar_frame (g : List GNode) (N : Nat) :
    ∀ (nodes : List GNode) (st : ParMaps) (j : Nat),
      (∀ n ∈ nodes, j ≠ n.id) →
      ((nodes.foldl (basicParStep g N) st).1.lookup j = st.1.lookup j) ∧
      ((nodes.foldl (basicParStep g N) st).2.lookup j = st.2.lookup j)
  | [], _, _, _ => ⟨rfl, rfl⟩
  | m :: rest, st, j, h => by
    have hm := basicParStep_frame g N st m j (h m (List.mem_cons_self m rest))
    have hr := foldl_basicPar_frame g N rest (basicParStep g N st m) j
      (fun n hn => h n (List.mem_cons_of_mem m hn))
    rw [List.foldl_cons]
    exact ⟨hr.1.trans hm.1, hr.2.trans hm.2⟩

/-- The heuristic decision for a fully-connected node: the two shape
thresholds. -/
theorem basicParDecision_fc (g : List GNode) (N : Nat) (st : ParMaps)
    (node : GNode) (hk : node.kind = NodeKind.FullyConnectedNodeKind) :
    basicParDecision g N st node =
      (if 512 ≤ node.weightsDims.getD 1 0 then
         some (N, ParallelTransformKind.Model)
       else if 256 ≤ node.inputDims.getD 0 0 then
         some (N, ParallelTransformKind.Data)
       else none) := by
  simp [basicParDecision, hk]

/-- Fold form of the fully-connected threshold property, by induction over
the walked suffix. -/
theorem setupBasic_fc_aux (g : List GNode) (N : Nat) (n : GNode)
    (hk : n.kind = NodeKind.FullyConnectedNodeKind) :
    ∀ (nodes : List GNode) (st : ParMaps),
      (nodes.map (fun x => x.id)).Nodup → n ∈ nodes →
      st.1.lookup n.id = none → st.2.lookup n.id = none →
      ((512 ≤ n.weightsDims.getD 1 0 →
          (nodes.foldl (basicParStep g N) st).2.lookup n.id =
            some ParallelTransformKind.Model ∧
          (nodes.foldl (basicParStep g N) st).1.lookup n.id = some N) ∧
       (n.weightsDims.getD 1 0 < 512 → 256 ≤ n.inputDims.getD 0 0 →
          (nodes.foldl (basicParStep g N) st).2.lookup n.id =
            some ParallelTransformKind.Data ∧
          (nodes.foldl (basicParStep g N) st).1.lookup n.id = some N) ∧
       (n.weightsDims.getD 1 0 < 512 → n.inputDims.getD 0 0 < 256 →
          (nodes.foldl (basicParStep g N) st).2.lookup n.id = none ∧
          (nodes.foldl (basicParStep g N) st).1.lookup n.id = none)) := by
  intro nodes
  induction nodes with
  | nil => intro st _ hmem; cases hmem
  | cons m rest ih =>
    intro st hnodup hmem h1 h2
    simp only [List.map_cons, List.nodup_cons] at hnodup
    rw [List.foldl_cons]
    rcases List.mem_cons.mp hmem with heq | hmem2
    · subst heq
      have hrest : ∀ x ∈ rest, n.id ≠ x.id := by
        intro x hx hc
        exact hnodup.1 (by rw [hc]; exact List.mem_map_of_mem _ hx)
      have hframe := foldl_basicPar_frame g N rest (basicParStep g N st n)
        n.id hrest
      have hdec := basicParDecision_fc g N st n hk
      by_cases hK : 512 ≤ n.weightsDims.getD 1 0
      · have hstep : basicParStep g N st n =
            insertBoth st n.id ParallelTransformKind.Model N := by
          unfold basicParStep; rw [hdec, if_pos hK]
        refine ⟨fun _ => ⟨?_, ?_⟩, fun hlt _ => by omega, fun hlt _ => by omega⟩
        · rw [hframe.2, hstep]; simp [insertBoth, lookup_mapInsert]
        · rw [hframe.1, hstep]; simp [insertBoth, lookup_mapInsert]
      · by_cases hM : 256 ≤ n.inputDims.getD 0 0
        · have hstep : basicParStep g N st n =
              insertBoth st n.id ParallelTransformKind.Data N := by
            unfold basicParStep; rw [hdec, if_neg hK, if_pos hM]
          refine ⟨fun hge => absurd hge hK, fun _ _ => ⟨?_, ?_⟩,
            fun _ hlt => by omega⟩
          · rw [hframe.2, hstep]; simp [insertBoth, lookup_mapInsert]
          · rw [hframe.1, hstep]; simp [insertBoth, lookup_mapInsert]
        · have hstep : basicParStep g N st n = st := by
            unfold basicParStep; rw [hdec, if_neg hK, if_neg hM]
          refine ⟨fun hge => absurd hge hK, fun _ hge => absurd hge hM,
            fun _ _ => ⟨?_, ?_⟩⟩
          · rw [hframe.2, hstep]; exact h2
          · rw [hframe.1, hstep]; exact h1
    · have hmid : m.id ≠ n.id := by
        intro hc
        exact hnodup.1 (hc ▸ List.mem_map_of_mem _ hmem2)
      have hframe := basicParStep_frame g N st m n.id (Ne.symm hmid)
      exact ih (basicParStep g N st m) hnodup.2 hmem2
        (hframe.1.trans h1) (hframe.2.trans h2)

/-- C6: in heuristic planning with chunk count `N > 1`, a fully-connected
node is planned Model-parallel when its contraction dimension (weights
dimension 1) is at least 512, else Data-parallel when its batch dimension
(input dimension 0) is at least 256, else it receives no split entry. -/
theorem setupBasic_fc_thresholds (g : List GNode) (N : Nat) (hN : 1 < N)
    (n : GNode) (hmem : n ∈ g)
    (hk : n.kind = NodeKind.FullyConnectedNodeKind)
    (hnodup : (g.map (fun x => x.id)).Nodup) :
    (512 ≤ n.weightsDims.getD 1 0 →
       (setupBasicParallelizationConfigs g N).2.lookup n.id =
         some ParallelTransformKind.Model ∧
       (setupBasicParallelizationConfigs g N).1.lookup n.id = some N) ∧
    (n.weightsDims.getD 1 0 < 512 → 256 ≤ n.inputDims.getD 0 0 →
       (setupBasicParallelizationConfigs g N).2.lookup n.id =
         some ParallelTransformKind.Data ∧
       (setupBasicParallelizationConfigs g N).1.lookup n.id = some N) ∧
    (n.weightsDims.getD 1 0 < 512 → n.inputDims.getD 0 0 < 256 →
       (setupBasicParallelizationConfigs g N).2.lookup n.id = none ∧
       (setupBasicParallelizationConfigs g N).1.lookup n.id = none) := by
  unfold setupBasicParallelizationConfigs
  exact setupBasic_fc_aux g N n hk g ([], []) hnodup hmem rfl rfl

/-- A fully-connected node with contraction dimension 512. -/
def fcWide : GNode := ⟨0, .FullyConnectedNodeKind, 99, [30, 64], [64, 512], 0⟩

/-- C6 witness: the wide fully-connected node is planned Model-parallel
into 4 chunks. -/
theorem setupBasic_fc_thresholds_witness :
    (setupBasicParallelizationConfigs [fcWide] 4).2.lookup 0 =
      some ParallelTransformKind.Model ∧
    (setupBasicParallelizationConfigs [fcWide] 4).1.lookup 0 = some 4 :=
  (setupBasic_fc_thresholds [fcWide] 4 (by decide) fcWide (by decide) rfl
    (by decide)).1 (by decide)

end NNPI

namespace NNPI

/-- C7: directive-driven setup errors on an unrecognized transform-kind
value, on a missing chunk-count next to a Data/Model transform-kind, and on
a chunk-count that does not parse to an integer greater than 1; a node
annotated with transform-kind None is skipped without error. -/
theorem setupPerNode_directiveValidation (n : GNode) (ann : NodeAnnotations)
    (s : String) (cvals : List String) :
    ((ann.lookup parallelTransformKindKey = some [s]) → s ≠ "Data" →
       s ≠ "Model" → s ≠ "None" →
       (setupPerNodeParallelizationConfigs [n] [(n.id, ann)]).isOk = false) ∧
    ((ann.lookup parallelTransformKindKey = some [s]) →
       (s = "Data" ∨ s = "Model") →
       ann.lookup numParallelChunksKey = none →
       (setupPerNodeParallelizationConfigs [n] [(n.id, ann)]).isOk = false) ∧
    ((ann.lookup parallelTransformKindKey = some [s]) →
       (s = "Data" ∨ s = "Model") →
       ann.lookup numParallelChunksKey = some cvals → cvals.length = 1 →
       (∀ k, getIntFromStr (cvals.headD "") = some k → k ≤ 1) →
       (setupPerNodeParallelizationConfigs [n] [(n.id, ann)]).isOk = false) ∧
    (ann.lookup parallelTransformKindKey = some ["None"] →
       setupPerNodeParallelizationConfigs [n] [(n.id, ann)] = .ok ([], [])) := by
  have hself : ([(n.id, ann)] : List (Nat × NodeAnnotations)).lookup n.id =
      some ann := by simp [List.lookup]
  refine ⟨?_, ?_, ?_, ?_⟩
  · intro hp h1 h2 h3
    simp [setupPerNodeParallelizationConfigs, setupPerNodeLoop, hself, hp,
      h1, h2, h3, Except.isOk, Except.toBool]
  · intro hp hdm hnone
    rcases hdm with rfl | rfl <;>
      simp [setupPerNodeParallelizationConfigs, setupPerNodeLoop, hself, hp,
        hnone, Except.isOk, Except.toBool]
  · intro hp hdm hcv hlen hk
    obtain ⟨c, rfl⟩ := List.length_eq_one.mp hlen
    cases hint : getIntFromStr (List.headD [c] "") with
    | none =>
      have hint2 : getIntFromStr c = none := hint
      rcases hdm with rfl | rfl <;>
        simp [setupPerNodeParallelizationConfigs, setupPerNodeLoop, hself, hp,
          hcv, hint2, Except.isOk, Except.toBool]
    | some k =>
      have hint2 : getIntFromStr c = some k := hint
      have hle : ¬(1 < k) := by
        have := hk k hint
        omega
      rcases hdm with rfl | rfl <;>
        simp [setupPerNodeParallelizationConfigs, setupPerNodeLoop, hself, hp,
          hcv, hint2, hle, Except.isOk, Except.toBool]
  · intro hp
    simp [setupPerNodeParallelizationConfigs, setupPerNodeLoop, hself, hp]

/-- A node and an annotation requesting a Data split into 1 chunk. -/
def annDataOne : NodeAnnotations :=
  [(parallelTransformKindKey, ["Data"]), (numParallelChunksKey, ["1"])]

/-- A bare graph node used by the directive witnesses. -/
def plainNode : GNode := ⟨7, .FullyConnectedNodeKind, 0, [], [], 0⟩

/-- C7 witness: a Data directive with chunk-count 1 is rejected, and a None
directive is skipped without error. -/
theorem setupPerNode_directiveValidation_witness :
    (setupPerNodeParallelizationConfigs [plainNode]
        [(plainNode.id, annDataOne)]).isOk = false ∧
    setupPerNodeParallelizationConfigs [plainNode]
        [(plainNode.id, [(parallelTransformKindKey, ["None"])])] =
      .ok ([], []) :=
  ⟨(setupPerNode_directiveValidation plainNode annDataOne "Data" ["1"]).2.2.1
      (by decide) (Or.inl rfl) (by decide) (by decide)
      (fun k hk => by
        have h1 : getIntFromStr (List.headD ["1"] "") = some 1 := by decide
        have h2 := h1.symm.trans hk
        injection h2 with h3
        omega),
   (setupPerNode_directiveValidation plainNode
      [(parallelTransformKindKey, ["None"])] "None" []).2.2.2 (by decide)⟩

/-- An empty annotation map makes the directive loop a no-op. -/
theorem setupPerNodeLoop_nilInfo :
    ∀ (nodes : List GNode) (st : ParMaps),
      setupPerNodeLoop [] nodes st = .ok st
  | [], _ => rfl
  | m :: rest, st => by
    simp only [setupPerNodeLoop, List.lookup]
    exact setupPerNodeLoop_nilInfo rest st

/-- C9: the parallelization driver is a no-op — it returns false and leaves
the function untouched — in directive mode when the function has no (or an
empty) annotation map, and in heuristic mode when the effective chunk count
is at most 1; in both cases no rewrite is invoked, whatever the rewrite
primitive would do. -/
theorem parallelizeFunction_noop (parallelizeOps : ParallelizeOpsFn)
    (glowNumParallelChunks : Int) (F : List GNode) (opts : BackendOptions) :
    ((opts.backendSpecificNodeInfo = none ∨
        opts.backendSpecificNodeInfo = some []) →
      parallelizeFunction parallelizeOps glowNumParallelChunks F opts true =
        .ok (false, F)) ∧
    (∀ d, effectiveParallelChunks glowNumParallelChunks opts = .ok d →
      d ≤ 1 →
      parallelizeFunction parallelizeOps glowNumParallelChunks F opts false =
        .ok (false, F)) := by
  constructor
  · rintro (h | h)
    · simp [parallelizeFunction, h]
    · simp [parallelizeFunction, h, setupPerNodeParallelizationConfigs,
        setupPerNodeLoop_nilInfo]
  · intro d hd hle
    simp [parallelizeFunction, hd, hle]

/-- C9 witness: directive mode with no annotations returns no-change on the
empty function. -/
theorem parallelizeFunction_noop_witness :
    parallelizeFunction (fun f _ _ _ => .ok (f, [])) 0 ([] : List GNode)
        ⟨none, []⟩ true = .ok (false, []) :=
  (parallelizeFunction_noop (fun f _ _ _ => .ok (f, [])) 0 [] ⟨none, []⟩).1
    (Or.inl rfl)

end NNPI


namespace NNPI

/-- The seven parallelization/placement annotation keys that must not
survive parallelization. -/
def residualKeys : List String :=
  [parallelTransformKindKey, numParallelChunksKey, coreAssignmentsKey,
   coreAssignmentsSuffixKey, extraEdgesTargetNameKey,
   extraEdgesTargetSuffixKey, extraEdgesSourceSuffixKey]

/-- `checkNoResidual` holds exactly when none of the seven keys is
present. -/
theorem checkNoResidual_iff (ann : NodeAnnotations) :
    checkNoResidual ann = true ↔
      ∀ key ∈ residualKeys, ann.lookup key = none := by
  simp [checkNoResidual, residualKeys, Option.isSome_iff_ne_none, and_assoc]

/-- What the per-rewrite validation loop demands of one replaced node: it
is unused, and the annotation record for it carries a single chunk-count
value parsing to exactly the concatenation's input count. -/
def goodReplacedEntry (info : List (Nat × NodeAnnotations))
    (p : GNode × Nat) : Prop :=
  p.1.numUsers = 0 ∧
  ∃ ann vals, info.lookup p.1.id = some ann ∧
    ann.lookup numParallelChunksKey = some vals ∧ vals.length = 1 ∧
    getIntFromStr (vals.headD "") = some ((p.2 : Nat) : Int)

/-- Erasing one key leaves lookups of other keys unchanged. -/
theorem lookup_eraseEntry_ne (m : List (Nat × NodeAnnotations)) (k j : Nat)
    (h : j ≠ k) : (eraseEntry m k).lookup j = m.lookup j := by
  induction m with
  | nil => rfl
  | cons p rest ih =>
    show (List.eraseP (fun q => q.1 == k) (p :: rest)).lookup j = _
    rw [List.eraseP_cons]
    cases hpk : (p.1 == k) with
    | true =>
      have hp : p.1 = k := by simpa using hpk
      have hjp : (j == p.1) = false := beq_false_of_ne (by rw [hp]; exact h)
      simp [List.lookup, hjp]
    | false =>
      simp only [cond_false]
      cases hjp : (j == p.1) with
      | true => simp [List.lookup, hjp]
      | false =>
        simp only [List.lookup, hjp]
        exact ih

/-- Erasing an unrelated id does not change what validation demands of a
replaced node. -/
theorem goodReplacedEntry_erase (info : List (Nat × NodeAnnotations))
    (k : Nat) (p : GNode × Nat) (h : p.1.id ≠ k) :
    goodReplacedEntry (eraseEntry info k) p ↔ goodReplacedEntry info p := by
  unfold goodReplacedEntry
  rw [lookup_eraseEntry_ne info k p.1.id h]

/-- Characterization of the per-rewrite validation loop: it succeeds
exactly when every replaced node satisfies `goodReplacedEntry` against the
starting map, and on success it returns the map purged of the replaced
entries. -/
theorem validateReplacedLoop_char :
    ∀ (replaced : List (GNode × Nat)) (info : List (Nat × NodeAnnotations)),
      (replaced.map (fun p => p.1.id)).Nodup →
      (((validateReplacedLoop replaced info).isOk = true) ↔
        ∀ p ∈ replaced, goodReplacedEntry info p) ∧
      (∀ info2, validateReplacedLoop replaced info = .ok info2 →
        info2 = purgeReplaced replaced info)
  | [], info, _ => by
    constructor
    · simp [validateReplacedLoop, Except.isOk, Except.toBool]
    · intro info2 h
      have h2 : info = info2 := by
        simpa [validateReplacedLoop] using h
      simp [purgeReplaced, ← h2]
  | (n, c) :: rest, info, hnodup => by
    simp only [List.map_cons, List.nodup_cons] at hnodup
    obtain ⟨hhead, htail⟩ := hnodup
    have hne : ∀ p ∈ rest, p.1.id ≠ n.id := by
      intro p hp hc
      exact hhead (by rw [← hc]; exact List.mem_map_of_mem _ hp)
    by_cases hu : n.numUsers = 0
    · have hstep0 : validateReplacedLoop ((n, c) :: rest) info =
          (match info.lookup n.id with
           | none =>
             .error "Only should have parallelized if backendSpecificNodeInfo said so."
           | some ann =>
             match ann.lookup numParallelChunksKey with
             | none => .error "Must have corresponding numParallelChunks."
             | some vals =>
               if vals.length = 1 then
                 match getIntFromStr (vals.headD "") with
                 | none => .error "Expected integer for numParallelChunks"
                 | some numParChunksVal =>
                   if numParChunksVal = (c : Int) then
                     validateReplacedLoop rest (eraseEntry info n.id)
                   else .error "Node not split the expected number of times."
               else .error "Expected a single value for numParallelChunks") := by
        conv_lhs => rw [validateReplacedLoop]
        rw [if_neg (not_not_intro hu)]
      cases hinfo : info.lookup n.id with
      | none =>
        simp only [hinfo] at hstep0
        constructor
        · rw [hstep0]
          refine iff_of_false (by simp [Except.isOk, Except.toBool]) ?_
          intro hall
          obtain ⟨_, ann, vals, hla, _⟩ := hall (n, c) (List.mem_cons_self _ _)
          rw [hinfo] at hla
          cases hla
        · intro info2 h
          rw [hstep0] at h
          cases h
      | some ann =>
        simp only [hinfo] at hstep0
        cases hcv : ann.lookup numParallelChunksKey with
        | none =>
          simp only [hcv] at hstep0
          constructor
          · rw [hstep0]
            refine iff_of_false (by simp [Except.isOk, Except.toBool]) ?_
            intro hall
            obtain ⟨_, ann2, vals, hla, hcv2, _⟩ :=
              hall (n, c) (List.mem_cons_self _ _)
            rw [hinfo] at hla
            cases hla
            rw [hcv] at hcv2
            cases hcv2
          · intro info2 h
            rw [hstep0] at h
            cases h
        | some vals =>
          simp only [hcv] at hstep0
          by_cases hlen : vals.length = 1
          · rw [if_pos hlen] at hstep0
            cases hint : getIntFromStr (vals.headD "") with
            | none =>
              simp only [hint] at hstep0
              constructor
              · rw [hstep0]
                refine iff_of_false (by simp [Except.isOk, Except.toBool]) ?_
                intro hall
                obtain ⟨_, ann2, vals2, hla, hcv2, hlen2, hint2⟩ :=
                  hall (n, c) (List.mem_cons_self _ _)
                rw [hinfo] at hla
                cases hla
                rw [hcv] at hcv2
                cases hcv2
                rw [hint] at hint2
                cases hint2
              · intro info2 h
                rw [hstep0] at h
                cases h
            | some k =>
              simp only [hint] at hstep0
              by_cases hkc : k = (c : Int)
              · rw [if_pos hkc] at hstep0
                have IH := validateReplacedLoop_char rest
                  (eraseEntry info n.id) htail
                constructor
                · rw [hstep0, IH.1]
                  constructor
                  · intro hrest p hp
                    rcases List.mem_cons.mp hp with heq | hp2
                    · rw [heq]
                      exact ⟨hu, ann, vals, hinfo, hcv, hlen, by rw [hint, hkc]⟩
                    · exact (goodReplacedEntry_erase info n.id p
                        (hne p hp2)).mp (hrest p hp2)
                  · intro hall p hp
                    exact (goodReplacedEntry_erase info n.id p
                      (hne p hp)).mpr (hall p (List.mem_cons_of_mem _ hp))
                · intro info2 h
                  rw [hstep0] at h
                  have h2 := IH.2 info2 h
                  rw [h2]
                  rfl
              · rw [if_neg hkc] at hstep0
                constructor
                · rw [hstep0]
                  refine iff_of_false (by simp [Except.isOk, Except.toBool]) ?_
                  intro hall
                  obtain ⟨_, ann2, vals2, hla, hcv2, hlen2, hint2⟩ :=
                    hall (n, c) (List.mem_cons_self _ _)
                  rw [hinfo] at hla
                  cases hla
                  rw [hcv] at hcv2
                  cases hcv2
                  rw [hint] at hint2
                  exact hkc (by injection hint2)
                · intro info2 h
                  rw [hstep0] at h
                  cases h
          · rw [if_neg hlen] at hstep0
            constructor
            · rw [hstep0]
              refine iff_of_false (by simp [Except.isOk, Except.toBool]) ?_
              intro hall
              obtain ⟨_, ann2, vals2, hla, hcv2, hlen2, _⟩ :=
                hall (n, c) (List.mem_cons_self _ _)
              rw [hinfo] at hla
              cases hla
              rw [hcv] at hcv2
              cases hcv2
              exact hlen hlen2
            · intro info2 h
              rw [hstep0] at h
              cases h
    · have hstep0 : validateReplacedLoop ((n, c) :: rest) info =
          .error "Replaced Node should no longer be used in the Function." := by
        conv_lhs => rw [validateReplacedLoop]
        rw [if_pos hu]
      constructor
      · rw [hstep0]
        exact iff_of_false (by simp [Except.isOk, Except.toBool])
          (fun hall => hu (hall (n, c) (List.mem_cons_self _ _)).1)
      · intro info2 h
        rw [hstep0] at h
        cases h

/-- C8: directive-mode post-rewrite validation succeeds exactly when every
replaced node is unused and its recorded chunk-count annotation equals the
replacing concatenation's input count, and, after the per-rewrite records
are purged, no node remaining in the function still carries any
parallelization or placement annotation key. -/
theorem validateBackendSpecificNodeInfo_iff (fNodes : List GNode)
    (replaced : List (GNode × Nat)) (currFunInfo : List (Nat × NodeAnnotations))
    (hnodup : (replaced.map (fun p => p.1.id)).Nodup) :
    ((validateBackendSpecificNodeInfo fNodes replaced currFunInfo).isOk = true) ↔
      ((∀ p ∈ replaced, goodReplacedEntry currFunInfo p) ∧
       (∀ v ∈ fNodes, ∀ ann,
          (purgeReplaced replaced currFunInfo).lookup v.id = some ann →
          ∀ key ∈ residualKeys, ann.lookup key = none)) := by
  have hchar := validateReplacedLoop_char replaced currFunInfo hnodup
  cases hloop : validateReplacedLoop replaced currFunInfo with
  | error e =>
    have hred : validateBackendSpecificNodeInfo fNodes replaced currFunInfo =
        .error e := by
      unfold validateBackendSpecificNodeInfo
      rw [hloop]
    have hnot : ¬∀ p ∈ replaced, goodReplacedEntry currFunInfo p := by
      rw [← hchar.1, hloop]
      simp [Except.isOk, Except.toBool]
    rw [hred]
    exact iff_of_false (by simp [Except.isOk, Except.toBool])
      (fun hall => hnot hall.1)
  | ok info2 =>
    have hpurge : info2 = purgeReplaced replaced currFunInfo :=
      hchar.2 info2 hloop
    subst hpurge
    have hgood : ∀ p ∈ replaced, goodReplacedEntry currFunInfo p := by
      rw [← hchar.1, hloop]
      rfl
    have hred : validateBackendSpecificNodeInfo fNodes replaced currFunInfo =
        (if (fNodes.all fun v =>
              match (purgeReplaced replaced currFunInfo).lookup v.id with
              | none => true
              | some ann => checkNoResidual ann) = true then
           Except.ok ()
         else
           Except.error
             "Node should not have residual parallelization or placement info") := by
      unfold validateBackendSpecificNodeInfo
      rw [hloop]
    rw [hred]
    by_cases hall : (fNodes.all fun v =>
        match (purgeReplaced replaced currFunInfo).lookup v.id with
        | none => true
        | some ann => checkNoResidual ann) = true
    · rw [if_pos hall]
      refine iff_of_true rfl ⟨hgood, ?_⟩
      intro v hv ann hla key hkey
      have hv2 := List.all_eq_true.mp hall v hv
      simp only [hla] at hv2
      exact (checkNoResidual_iff ann).mp hv2 key hkey
    · rw [if_neg hall]
      refine iff_of_false (by simp [Except.isOk, Except.toBool]) ?_
      intro hcontra
      apply hall
      rw [List.all_eq_true]
      intro v hv
      cases hla : (purgeReplaced replaced currFunInfo).lookup v.id with
      | none => rfl
      | some ann => exact (checkNoResidual_iff ann).mpr (hcontra.2 v hv ann hla)

/-- C8 witness: with no rewrites recorded, no annotations and no nodes,
validation succeeds. -/
theorem validateBackendSpecificNodeInfo_iff_witness :
    (validateBackendSpecificNodeInfo [] [] []).isOk = true :=
  (validateBackendSpecificNodeInfo_iff [] [] [] (by simp)).mpr
    ⟨by simp, by simp⟩

end NNPI
